import Mathlib

/-!
Shallow embedding of `lib/gemlogconf.py` (Gemini logs configuration
resources): the comment/directive filters, `set_log_level`,
`log_level_thread` and `init_timertng_log`, together with theorems about
the configuration-parsing and watcher behaviour.

Python strings are modelled as `List Char`; a configuration file is the
list of raw lines returned by `readlines()` (each line may carry its
trailing newline).  Operations that can raise in Python (`open`/`read`,
`os.path.getmtime`) are modelled as `Except`-valued inputs carrying the
exception message.
-/

namespace Gemlogconf

/-- Python's `str.strip()` whitespace test (ASCII whitespace). -/
def isPySpace (c : Char) : Bool :=
  c = ' ' || c = '\t' || c = '\n' || c = '\r' || c = '\x0b' || c = '\x0c'

/-- Python `l.strip()`: drop leading and trailing whitespace. -/
def pyStrip (l : List Char) : List Char :=
  ((l.dropWhile isPySpace).reverse.dropWhile isPySpace).reverse

/-- Python `l.split('=')`: split on every `'='`, keeping empty fields. -/
def splitOnEq : List Char → List (List Char)
  | [] => [[]]
  | c :: cs =>
    if c = '=' then [] :: splitOnEq cs
    else
      match splitOnEq cs with
      | [] => [[c]]
      | f :: rest => (c :: f) :: rest

/-- Does `s` start with `pat`? (used to implement substring search). -/
def beginsWith : List Char → List Char → Bool
  | [], _ => true
  | _ :: _, [] => false
  | p :: ps, c :: cs => p = c && beginsWith ps cs

/-- Does `pat` occur as a contiguous substring of `s`?  This is the
semantics of `re.search` for a pattern that is a plain literal. -/
def findSubstr (pat : List Char) : List Char → Bool
  | [] => beginsWith pat []
  | c :: cs => beginsWith pat (c :: cs) || findSubstr pat cs

/-- `cmnt_filt = re.compile(r'^[ ]*[^#]')`, applied via `.search(l)`.
Without `re.MULTILINE` the anchor `^` only matches at position 0, so the
search succeeds iff, starting at position 0, some number of literal
spaces is followed by one character other than `#`; the disjunction
mirrors the regex engine's backtracking choice between matching zero
spaces (then the head must satisfy `[^#]`) and consuming one space
before retrying.  Note that the class `[^#]` itself also accepts a
space. -/
def cmnt_filt : List Char → Bool
  | [] => false
  | c :: cs => !(c = '#') || ((c = ' ') && cmnt_filt cs)

/-- `level_filt = re.compile(r'level=')`, applied via `.search(l)`:
a plain substring search for `level=`. -/
def level_filt (l : List Char) : Bool :=
  findSubstr "level=".data l

/-- The `log_level` dictionary: severity name to numeric `logging`
level (`logging.DEBUG = 10`, …, `logging.CRITICAL = 50`). -/
def log_level : List (List Char × Nat) :=
  [("DEBUG".data, 10), ("INFO".data, 20), ("WARNING".data, 30),
   ("ERROR".data, 40), ("CRITICAL".data, 50)]

/-- `log_level.keys()`. -/
def log_level_keys : List (List Char) :=
  log_level.map Prod.fst

/-- Dictionary access `log_level[level]` (only reached when the key is
present). -/
def log_level_num (level : List Char) : Nat :=
  (log_level.lookup level).getD 0

/-- `[l.strip() for l in f.readlines() if cmnt_filt.search(l)]`:
filter the raw lines through `cmnt_filt`, then strip each survivor.
This list comprehension appears verbatim in both `set_log_level` and
`log_level_thread`. -/
def conf_raw (lines : List (List Char)) : List (List Char) :=
  (lines.filter cmnt_filt).map pyStrip

/-- Outcome of the shared `for l in conf_raw: … else: …` scan: the first
retained line containing `level=` either yields a valid severity name
(`found`), or an unrecognized candidate (`invalid`); if no retained line
contains `level=` the `for`-`else` branch runs (`missing`). -/
inductive ParseOutcome : Type
  | found (level : List Char)
  | invalid (level : List Char)
  | missing
deriving DecidableEq, Repr

/-- The scan itself.  `level = l.split('=')[1]` is the index-1 access of
the `=`-split; the `.getD []` default is unreachable for lines passing
`level_filt` (proved below: such a line contains `=`, so the split has
at least two fields). -/
def scan_lines : List (List Char) → ParseOutcome
  | [] => .missing
  | l :: rest =>
    if level_filt l then
      let level := ((splitOnEq l)[1]?).getD []
      if level ∈ log_level_keys then .found level else .invalid level
    else scan_lines rest

/-- A call made on the logger: `logger.info`, `logger.error` or
`logger.critical`, with the message text. -/
inductive LogEvent : Type
  | info (msg : List Char)
  | error (msg : List Char)
  | critical (msg : List Char)
deriving DecidableEq, Repr

/-- Is the event an `error`-method call? -/
def LogEvent.isError : LogEvent → Bool
  | .error _ => true
  | _ => false

/-- The shared logger handle: its current verbosity threshold and the
chronological list of logging calls made on it (newest last). -/
structure Logger : Type where
  threshold : Nat
  events : List LogEvent
deriving DecidableEq, Repr

/-- `logger.setLevel(n)`. -/
def Logger.setLevel (lg : Logger) (n : Nat) : Logger :=
  { lg with threshold := n }

/-- Record a logging call. -/
def Logger.log (lg : Logger) (e : LogEvent) : Logger :=
  { lg with events := lg.events ++ [e] }

/- Message texts, exactly as written in the f-strings of the source. -/

def msg_started (level : List Char) : List Char :=
  "Log level started as: ".data ++ level

def msg_changed (level : List Char) : List Char :=
  "Log level changed to: ".data ++ level

def msg_bad_option (cf level : List Char) : List Char :=
  "Bad option in ".data ++ cf ++ ". Level: ".data ++ level ++ " is not valid".data

def msg_set_info : List Char :=
  "Level has been set to INFO".data

def msg_beem_info : List Char :=
  "Level has beem set to INFO".data

def msg_no_level_init (cf : List Char) : List Char :=
  "Theres no level configuration in ".data ++ cf

def msg_no_level_thread (cf : List Char) : List Char :=
  "There is no level configuration in ".data ++ cf

def msg_mtime_conflict (cf : List Char) : List Char :=
  "Conflict while getting mod time for ".data ++ cf

def msg_mtime_retry : List Char :=
  "Retrying geting mod time...".data

def msg_read_conflict (cf : List Char) : List Char :=
  "Conflict while modifying ".data ++ cf

def msg_read_retry : List Char :=
  "Retrying to set the log level...".data

/-- Effects of the scan loop in `set_log_level`: on a valid level, set
it and log an info line; on an invalid one, log two critical lines (the
level is already INFO from the start of the function, so it is not set
again); on a missing directive, log the `for`-`else` critical lines. -/
def set_log_apply (cf : List Char) (lg : Logger) : ParseOutcome → Logger
  | .found level => (lg.setLevel (log_level_num level)).log (.info (msg_started level))
  | .invalid level =>
      (lg.log (.critical (msg_bad_option cf level))).log (.critical msg_set_info)
  | .missing =>
      (lg.log (.critical (msg_no_level_init cf))).log (.critical msg_beem_info)

/-- Result of `set_log_level`: either `sys.exit(e)` was reached (the
`except` branch around `open`/`readlines`) or the function returned
normally; both carry the logger state at that point. -/
inductive InitOutcome : Type
  | exited (e : List Char) (lg : Logger)
  | ok (lg : Logger)
deriving DecidableEq, Repr

/-- Logger state carried by either outcome. -/
def InitOutcome.logger : InitOutcome → Logger
  | .exited _ lg => lg
  | .ok lg => lg

/-- Did the outcome reach `sys.exit`? -/
def InitOutcome.isExited : InitOutcome → Bool
  | .exited _ _ => true
  | .ok _ => false

/-- `set_log_level(config_file, logger)`.  `readRes` is the outcome of
`open(config_file).readlines()`: the raw lines on success, the exception
message on failure.  The function first sets the level to INFO, then
reads the file (`sys.exit(e)` on failure), then runs the scan loop. -/
def set_log_level (cf : List Char) (readRes : Except (List Char) (List (List Char)))
    (lg : Logger) : InitOutcome :=
  let lg := lg.setLevel (log_level_num "INFO".data)
  match readRes with
  | .error e => .exited e lg
  | .ok lines => .ok (set_log_apply cf lg (scan_lines (conf_raw lines)))

/-- Effects of the scan loop in `log_level_thread`: same scan, but the
invalid and missing branches also call `logger.setLevel(log_level['INFO'])`
between their two critical lines. -/
def thread_apply (cf : List Char) (lg : Logger) : ParseOutcome → Logger
  | .found level => (lg.setLevel (log_level_num level)).log (.info (msg_changed level))
  | .invalid level =>
      (((lg.log (.critical (msg_bad_option cf level))).setLevel
        (log_level_num "INFO".data)).log (.critical msg_set_info))
  | .missing =>
      (((lg.log (.critical (msg_no_level_thread cf))).setLevel
        (log_level_num "INFO".data)).log (.critical msg_beem_info))

/-- What the filesystem would answer during one loop iteration:
`mtime` is the result of `os.path.getmtime(config_file)`, `read` the
result of `open(config_file).readlines()` (consulted only when the
modification time changed); an `Except.error` models a raised
exception carrying its message. -/
structure TickEnv : Type where
  mtime : Except (List Char) Int
  read : Except (List Char) (List (List Char))

/-- Watcher state across iterations: the stored last-seen modification
time `mod_time` and the shared logger. -/
structure WState : Type where
  modTime : Int
  logger : Logger
deriving DecidableEq, Repr

/-- One iteration of the `while True` loop of `log_level_thread` (after
the `time.sleep(0.25)`): get the current modification time (on failure
log three error lines and `continue`); if it equals the stored one
(`comp_mtime = curr_mtime - mod_time; if not(comp_mtime)`) `continue`;
otherwise store the new time, then read the file (on failure log three
error lines and `continue`) and run the scan loop. -/
def thread_step (cf : List Char) (env : TickEnv) (s : WState) : WState :=
  match env.mtime with
  | .error e =>
      { s with logger :=
          (((s.logger.log (.error (msg_mtime_conflict cf))).log (.error e)).log
            (.error msg_mtime_retry)) }
  | .ok curr =>
    if curr - s.modTime = 0 then s
    else
      let s2 : WState := { s with modTime := curr }
      match env.read with
      | .error e =>
          { s2 with logger :=
              (((s2.logger.log (.error (msg_read_conflict cf))).log (.error e)).log
                (.error msg_read_retry)) }
      | .ok lines =>
          { s2 with logger := thread_apply cf s2.logger (scan_lines (conf_raw lines)) }

/-- `log_level_thread(config_file, logger)`, observed for a finite
prefix of iterations.  `initMtime` is the `os.path.getmtime` call made
before the loop: it is not inside any `try`, so a failure there
propagates and kills the thread (`none`).  Otherwise the loop folds
`thread_step` over the per-iteration filesystem answers. -/
def log_level_thread (cf : List Char) (initMtime : Except (List Char) Int)
    (ticks : List TickEnv) (lg : Logger) : Option WState :=
  match initMtime with
  | .error _ => none
  | .ok m0 => some (ticks.foldl (fun s env => thread_step cf env s) ⟨m0, lg⟩)

/-- Result of `init_timertng_log`: either the process exited inside the
initial `set_log_level`, or the logger is returned (with the watcher
thread spawned). -/
inductive InitResult : Type
  | exited (e : List Char) (lg : Logger)
  | started (lg : Logger)
deriving DecidableEq, Repr

/-- Did initialization abort the process? -/
def InitResult.isExited : InitResult → Bool
  | .exited _ _ => true
  | .started _ => false

/-- Fresh logger from `logging.getLogger` before any level is set
(`NOTSET = 0`), with no calls recorded yet. -/
def freshLogger : Logger := ⟨0, []⟩

/-- `init_timertng_log(config_file, log_file, rot_hour)`, restricted to
the configuration-level concerns: handler/formatter wiring is external.
It runs `set_log_level` synchronously — a `sys.exit` there aborts the
process — and otherwise starts the watcher thread and returns the
logger. -/
def init_timertng_log (cf : List Char)
    (readRes : Except (List Char) (List (List Char))) : InitResult :=
  match set_log_level cf readRes freshLogger with
  | .exited e lg => .exited e lg
  | .ok lg => .started lg

/-- Spec-side definition for claim C1 only, following the spec's words:
"everything after the first `=`" in the line. -/
def afterFirstEq_spec (l : List Char) : List Char :=
  (l.dropWhile (fun c => !(c = '='))).drop 1

/-! ### Helper lemmas about the `=`-split and the substring search -/

theorem splitOnEq_ne_nil (l : List Char) : splitOnEq l ≠ [] := by
  cases l with
  | nil => simp [splitOnEq]
  | cons c cs =>
    simp only [splitOnEq]
    split
    · simp
    · split <;> simp

theorem two_le_length_splitOnEq (l : List Char) (h : '=' ∈ l) :
    2 ≤ (splitOnEq l).length := by
  induction l with
  | nil => simp at h
  | cons c cs ih =>
    by_cases hc : c = '='
    · have h1 : 0 < (splitOnEq cs).length :=
        List.length_pos.mpr (splitOnEq_ne_nil cs)
      simp only [splitOnEq, if_pos hc, List.length_cons]
      omega
    · have hcs : '=' ∈ cs := by
        rcases List.mem_cons.mp h with h1 | h1
        · exact absurd h1.symm hc
        · exact h1
      cases hsp : splitOnEq cs with
      | nil => exact absurd hsp (splitOnEq_ne_nil cs)
      | cons f rest =>
        have h2 := ih hcs
        rw [hsp] at h2
        simp only [splitOnEq, if_neg hc, hsp, List.length_cons] at *
        omega

theorem mem_of_beginsWith :
    ∀ pat s : List Char, beginsWith pat s = true → ∀ a ∈ pat, a ∈ s := by
  intro pat
  induction pat with
  | nil => intro s _ a ha; simp at ha
  | cons p ps ih =>
    intro s hb a ha
    cases s with
    | nil => simp [beginsWith] at hb
    | cons c cs =>
      simp only [beginsWith, Bool.and_eq_true, decide_eq_true_eq] at hb
      rcases List.mem_cons.mp ha with h1 | h1
      · exact List.mem_cons.mpr (Or.inl (h1.trans hb.1))
      · exact List.mem_cons.mpr (Or.inr (ih cs hb.2 a h1))

theorem mem_of_findSubstr (pat : List Char) :
    ∀ s : List Char, findSubstr pat s = true → ∀ a ∈ pat, a ∈ s := by
  intro s
  induction s with
  | nil =>
    intro h a ha
    exact mem_of_beginsWith pat [] h a ha
  | cons c cs ih =>
    intro h a ha
    rcases Bool.or_eq_true _ _ |>.mp h with h1 | h1
    · exact mem_of_beginsWith pat (c :: cs) h1 a ha
    · exact List.mem_cons.mpr (Or.inr (ih h1 a ha))

theorem eq_mem_of_level_filt (l : List Char) (h : level_filt l = true) :
    '=' ∈ l :=
  mem_of_findSubstr "level=".data l h '=' (by decide)

theorem splitOnEq_zero (l : List Char) :
    (splitOnEq l)[0]? = some (l.takeWhile (fun c => !(c = '='))) := by
  induction l with
  | nil => simp [splitOnEq]
  | cons c cs ih =>
    by_cases hc : c = '='
    · simp [splitOnEq, if_pos hc, List.takeWhile_cons, hc]
    · cases hsp : splitOnEq cs with
      | nil => exact absurd hsp (splitOnEq_ne_nil cs)
      | cons f rest =>
        rw [hsp] at ih
        simp only [List.getElem?_cons_zero, Option.some.injEq] at ih
        simp [splitOnEq, if_neg hc, hsp, List.takeWhile_cons, hc, ih]

theorem splitOnEq_one (l : List Char) (h : '=' ∈ l) :
    (splitOnEq l)[1]? =
      some ((afterFirstEq_spec l).takeWhile (fun c => !(c = '='))) := by
  induction l with
  | nil => simp at h
  | cons c cs ih =>
    by_cases hc : c = '='
    · subst hc
      simp only [splitOnEq, if_pos rfl, List.getElem?_cons_succ]
      have hd := splitOnEq_zero cs
      simpa [afterFirstEq_spec, List.dropWhile_cons] using hd
    · have hcs : '=' ∈ cs := by
        rcases List.mem_cons.mp h with h1 | h1
        · exact absurd h1.symm hc
        · exact h1
      cases hsp : splitOnEq cs with
      | nil => exact absurd hsp (splitOnEq_ne_nil cs)
      | cons f rest =>
        have h2 := ih hcs
        rw [hsp] at h2
        simp only [List.getElem?_cons_succ] at h2
        simp only [splitOnEq, if_neg hc, hsp, List.getElem?_cons_succ]
        simpa [afterFirstEq_spec, List.dropWhile_cons, hc] using h2

/-! ### Claim C10 -/

/-- C10: in both `set_log_level` and `log_level_thread`, taking element
1 of the `=`-split never goes out of bounds: every line reaching that
expression has passed `level_filt`, hence contains at least one `=`,
so the split has at least two fields. -/
theorem C10_split_access_in_bounds (l : List Char) (h : level_filt l = true) :
    2 ≤ (splitOnEq l).length ∧ ((splitOnEq l)[1]?).isSome = true := by
  have he : '=' ∈ l := eq_mem_of_level_filt l h
  have h2 := two_le_length_splitOnEq l he
  refine ⟨h2, ?_⟩
  rw [splitOnEq_one l he]
  rfl

/-- Witness for C10 at the concrete line `level=INFO`. -/
theorem C10_split_access_in_bounds_witness :
    level_filt "level=INFO".data = true ∧
      (2 ≤ (splitOnEq "level=INFO".data).length ∧
        ((splitOnEq "level=INFO".data)[1]?).isSome = true) :=
  ⟨by decide, C10_split_access_in_bounds "level=INFO".data (by decide)⟩

/-! ### Claim C1 -/

/-- C1 counterexample: on the retained line `level=INFO=x` the code's
candidate is `INFO` — element 1 of the `=`-split, not everything after
the first `=` (`INFO=x`) — and it passes validation instead of failing
it, so the whole file parses to `found INFO`. -/
theorem C1_counterexample :
    scan_lines (conf_raw ["level=INFO=x\n".data]) = ParseOutcome.found "INFO".data ∧
    afterFirstEq_spec "level=INFO=x".data = "INFO=x".data ∧
    ¬ "INFO=x".data ∈ log_level_keys ∧
    "INFO".data ∈ log_level_keys := by
  refine ⟨by decide, by decide, by decide, by decide⟩

/-- C1 amended: the candidate validated against the severity names is
element 1 of the `=`-split — the text after the first `=` truncated at
the next `=` — which equals everything after the first `=` only when the
line contains no second `=`. -/
theorem C1_candidate_is_second_field (l : List Char) (h : level_filt l = true) :
    (splitOnEq l)[1]? =
      some ((afterFirstEq_spec l).takeWhile (fun c => !(c = '='))) :=
  splitOnEq_one l (eq_mem_of_level_filt l h)

/-- Witness for the amended C1 at the concrete line `level=INFO`. -/
theorem C1_candidate_is_second_field_witness :
    level_filt "level=INFO".data = true ∧
      (splitOnEq "level=INFO".data)[1]? =
        some ((afterFirstEq_spec "level=INFO".data).takeWhile (fun c => !(c = '='))) :=
  ⟨by decide, C1_candidate_is_second_field "level=INFO".data (by decide)⟩

/-! ### Helper lemmas about one watcher iteration -/

theorem thread_step_mtime_error (cf : List Char) (env : TickEnv) (s : WState)
    (e : List Char) (h : env.mtime = Except.error e) :
    thread_step cf env s =
      { s with logger :=
          (((s.logger.log (.error (msg_mtime_conflict cf))).log (.error e)).log
            (.error msg_mtime_retry)) } := by
  unfold thread_step
  rw [h]

theorem thread_step_skip (cf : List Char) (env : TickEnv) (s : WState)
    (c : Int) (hm : env.mtime = Except.ok c) (h0 : c - s.modTime = 0) :
    thread_step cf env s = s := by
  unfold thread_step
  rw [hm]
  simp [h0]

theorem thread_step_read_error (cf : List Char) (env : TickEnv) (s : WState)
    (c : Int) (e : List Char) (hm : env.mtime = Except.ok c)
    (hne : c - s.modTime ≠ 0) (hr : env.read = Except.error e) :
    thread_step cf env s =
      ⟨c, (((s.logger.log (.error (msg_read_conflict cf))).log (.error e)).log
            (.error msg_read_retry))⟩ := by
  unfold thread_step
  rw [hm, hr]
  simp [hne]

theorem thread_step_read_ok (cf : List Char) (env : TickEnv) (s : WState)
    (c : Int) (lines : List (List Char)) (hm : env.mtime = Except.ok c)
    (hne : c - s.modTime ≠ 0) (hr : env.read = Except.ok lines) :
    thread_step cf env s =
      ⟨c, thread_apply cf s.logger (scan_lines (conf_raw lines))⟩ := by
  unfold thread_step
  rw [hm, hr]
  simp [hne]

/-! ### Claim C2 -/

/-- C2: a comment line indented by a single space is not excluded from
parsing.  `cmnt_filt`'s regex `^[ ]*[^#]` matches it (the class `[^#]`
also accepts the leading space itself), so the line survives the filter,
its `level=CRITICAL` text is taken as the first directive, and both
`set_log_level` and a watcher iteration set the threshold to
`logging.CRITICAL = 50`. -/
theorem C2_indented_comment_honored :
    cmnt_filt " #level=CRITICAL\n".data = true ∧
    conf_raw [" #level=CRITICAL\n".data] = ["#level=CRITICAL".data] ∧
    scan_lines (conf_raw [" #level=CRITICAL\n".data]) =
      ParseOutcome.found "CRITICAL".data ∧
    (set_log_level "cfg".data (Except.ok [" #level=CRITICAL\n".data])
        freshLogger).logger.threshold = 50 ∧
    (thread_step "cfg".data ⟨Except.ok 1, Except.ok [" #level=CRITICAL\n".data]⟩
        ⟨0, freshLogger⟩).logger.threshold = 50 := by
  refine ⟨by decide, by decide, by decide, by decide, by decide⟩

/-! ### Claim C3 -/

/-- C3 counterexample: the initial `os.path.getmtime` call of
`log_level_thread` stands before the `while True` loop and outside any
`try`; if it raises, the exception propagates and the watcher thread
dies before its first iteration. -/
theorem C3_counterexample :
    log_level_thread "cfg".data (Except.error "boom".data)
      [⟨Except.ok 1, Except.ok []⟩] freshLogger = none := rfl

/-- C3 amended: once the initial modification-time capture has
succeeded, every error during polling or parsing is handled inside its
own iteration, and the watcher survives any finite sequence of
iteration outcomes, however they fail. -/
theorem C3_loop_errors_contained (cf : List Char) (m0 : Int)
    (ticks : List TickEnv) (lg : Logger) :
    (log_level_thread cf (Except.ok m0) ticks lg).isSome = true := rfl

/-! ### Claim C5 -/

/-- C5: an iteration in which retrieving the modification time raises,
or in which the time changed but opening/reading the file raises, leaves
the threshold unchanged and appends only `error`-method calls to the log
(at least one), after which the loop proceeds to the next tick. -/
theorem C5_transient_error_keeps_level (cf : List Char) (env : TickEnv) (s : WState)
    (h : (∃ e, env.mtime = Except.error e) ∨
         (∃ c e, env.mtime = Except.ok c ∧ c - s.modTime ≠ 0 ∧
          env.read = Except.error e)) :
    (thread_step cf env s).logger.threshold = s.logger.threshold ∧
    ∃ es, es ≠ [] ∧ (∀ ev ∈ es, ev.isError = true) ∧
      (thread_step cf env s).logger.events = s.logger.events ++ es := by
  rcases h with ⟨e, hm⟩ | ⟨c, e, hm, hne, hr⟩
  · rw [thread_step_mtime_error cf env s e hm]
    refine ⟨rfl, [.error (msg_mtime_conflict cf), .error e, .error msg_mtime_retry],
      by simp, ?_, ?_⟩
    · intro ev hev
      simp only [List.mem_cons, List.not_mem_nil, or_false] at hev
      rcases hev with h1 | h1 | h1 <;> subst h1 <;> rfl
    · simp [Logger.log]
  · rw [thread_step_read_error cf env s c e hm hne hr]
    refine ⟨rfl, [.error (msg_read_conflict cf), .error e, .error msg_read_retry],
      by simp, ?_, ?_⟩
    · intro ev hev
      simp only [List.mem_cons, List.not_mem_nil, or_false] at hev
      rcases hev with h1 | h1 | h1 <;> subst h1 <;> rfl
    · simp [Logger.log]

/-- Witness for C5: the file's modification time becomes unreadable for
one tick. -/
theorem C5_transient_error_keeps_level_witness :
    (thread_step "cfg".data ⟨Except.error "gone".data, Except.ok []⟩
        ⟨0, freshLogger⟩).logger.threshold =
      (WState.mk 0 freshLogger).logger.threshold ∧
    ∃ es, es ≠ [] ∧ (∀ ev ∈ es, ev.isError = true) ∧
      (thread_step "cfg".data ⟨Except.error "gone".data, Except.ok []⟩
          ⟨0, freshLogger⟩).logger.events =
        (WState.mk 0 freshLogger).logger.events ++ es :=
  C5_transient_error_keeps_level "cfg".data ⟨Except.error "gone".data, Except.ok []⟩
    ⟨0, freshLogger⟩ (Or.inl ⟨"gone".data, rfl⟩)

/-! ### Claim C8 -/

/-- C8: when the current modification time equals the stored one, the
iteration is a complete no-op: no file read, no parse, no logging call,
and no change to the threshold or to the watcher's state. -/
theorem C8_unchanged_mtime_noop (cf : List Char) (env : TickEnv) (s : WState)
    (c : Int) (hm : env.mtime = Except.ok c) (heq : c = s.modTime) :
    thread_step cf env s = s :=
  thread_step_skip cf env s c hm (by rw [heq, sub_self])

/-- Witness for C8 at a concrete unchanged timestamp. -/
theorem C8_unchanged_mtime_noop_witness :
    thread_step "cfg".data ⟨Except.ok 7, Except.ok ["level=DEBUG".data]⟩
        ⟨7, freshLogger⟩ = ⟨7, freshLogger⟩ :=
  C8_unchanged_mtime_noop "cfg".data ⟨Except.ok 7, Except.ok ["level=DEBUG".data]⟩
    ⟨7, freshLogger⟩ 7 rfl rfl

/-! ### Claim C9 -/

/-- C9: on a detected modification-time change the stored time is
updated to the current value before the file is opened, whatever the
read then does; hence if the read fails and the time does not change
again, the following iteration performs no further parse attempt. -/
theorem C9_mtime_updated_before_read (cf : List Char) (env env2 : TickEnv)
    (s : WState) (c : Int) (hm : env.mtime = Except.ok c)
    (hne : c - s.modTime ≠ 0) (hm2 : env2.mtime = Except.ok c) :
    (thread_step cf env s).modTime = c ∧
    thread_step cf env2 (thread_step cf env s) = thread_step cf env s := by
  have h1 : (thread_step cf env s).modTime = c := by
    cases hr : env.read with
    | error e => rw [thread_step_read_error cf env s c e hm hne hr]
    | ok lines => rw [thread_step_read_ok cf env s c lines hm hne hr]
  exact ⟨h1, thread_step_skip cf env2 _ c hm2 (by rw [h1, sub_self])⟩

/-- Witness for C9: a change is seen, the read fails, and the next tick
with the same timestamp does nothing. -/
theorem C9_mtime_updated_before_read_witness :
    (thread_step "cfg".data ⟨Except.ok 3, Except.error "locked".data⟩
        ⟨0, freshLogger⟩).modTime = 3 ∧
    thread_step "cfg".data ⟨Except.ok 3, Except.ok ["level=DEBUG".data]⟩
        (thread_step "cfg".data ⟨Except.ok 3, Except.error "locked".data⟩
          ⟨0, freshLogger⟩) =
      thread_step "cfg".data ⟨Except.ok 3, Except.error "locked".data⟩
        ⟨0, freshLogger⟩ :=
  C9_mtime_updated_before_read "cfg".data ⟨Except.ok 3, Except.error "locked".data⟩
    ⟨Except.ok 3, Except.ok ["level=DEBUG".data]⟩ ⟨0, freshLogger⟩ 3 rfl
    (by decide) rfl

/-! ### The scan loop on the first line passing `level_filt` -/

theorem scan_lines_find (conf : List (List Char)) (l : List Char)
    (h : conf.find? level_filt = some l) :
    scan_lines conf =
      if ((splitOnEq l)[1]?).getD [] ∈ log_level_keys then
        ParseOutcome.found (((splitOnEq l)[1]?).getD [])
      else ParseOutcome.invalid (((splitOnEq l)[1]?).getD []) := by
  induction conf with
  | nil => simp at h
  | cons x xs ih =>
    by_cases hx : level_filt x
    · rw [List.find?_cons_of_pos _ hx] at h
      injection h with h
      subst h
      simp [scan_lines, hx]
    · rw [List.find?_cons_of_neg _ hx] at h
      simp [scan_lines, hx, ih h]

/-! ### Distinguishability of the diagnostic messages -/

theorem msg_no_level_init_ne_bad (cf t : List Char) :
    msg_no_level_init cf ≠ msg_bad_option cf t := by
  unfold msg_no_level_init msg_bad_option
  intro h
  rw [show "Theres no level configuration in ".data =
        'T' :: "heres no level configuration in ".data from rfl,
      show "Bad option in ".data = 'B' :: "ad option in ".data from rfl] at h
  simp only [List.cons_append, List.cons.injEq] at h
  exact absurd h.1 (by decide)

theorem msg_no_level_thread_ne_bad (cf t : List Char) :
    msg_no_level_thread cf ≠ msg_bad_option cf t := by
  unfold msg_no_level_thread msg_bad_option
  intro h
  rw [show "There is no level configuration in ".data =
        'T' :: "here is no level configuration in ".data from rfl,
      show "Bad option in ".data = 'B' :: "ad option in ".data from rfl] at h
  simp only [List.cons_append, List.cons.injEq] at h
  exact absurd h.1 (by decide)

/-! ### Claim C4 -/

/-- C4: `set_log_level` (and `init_timertng_log`, which runs it
synchronously at startup) reaches `sys.exit` exactly when the initial
open/read of the configuration file fails; every other configuration
problem is logged and defaulted rather than fatal. -/
theorem C4_fatal_iff_initial_read_fails (cf : List Char)
    (readRes : Except (List Char) (List (List Char))) (lg : Logger) :
    ((set_log_level cf readRes lg).isExited = true ↔
      ∃ e, readRes = Except.error e) ∧
    ((init_timertng_log cf readRes).isExited = true ↔
      ∃ e, readRes = Except.error e) := by
  cases readRes with
  | error e =>
    simp [set_log_level, init_timertng_log, InitOutcome.isExited,
      InitResult.isExited]
  | ok lines =>
    simp [set_log_level, init_timertng_log, InitOutcome.isExited,
      InitResult.isExited]

/-! ### Claim C6 -/

/-- C6: whenever a parse — the initial `set_log_level` or a watcher
re-parse — finds no retained `level=` line, or finds one whose
candidate is not a severity name, the threshold ends up at
`logging.INFO`, and the two cases log distinguishable critical-severity
messages. -/
theorem C6_fallback_to_info (cf t : List Char) (linesM linesI : List (List Char))
    (lg : Logger) (s : WState) (envM envI : TickEnv) (cM cI : Int)
    (hmiss : scan_lines (conf_raw linesM) = ParseOutcome.missing)
    (hinv : scan_lines (conf_raw linesI) = ParseOutcome.invalid t)
    (hM : envM.mtime = Except.ok cM) (hMne : cM - s.modTime ≠ 0)
    (hMr : envM.read = Except.ok linesM)
    (hI : envI.mtime = Except.ok cI) (hIne : cI - s.modTime ≠ 0)
    (hIr : envI.read = Except.ok linesI) :
    (set_log_level cf (Except.ok linesM) lg).logger.threshold =
      log_level_num "INFO".data ∧
    LogEvent.critical (msg_no_level_init cf) ∈
      (set_log_level cf (Except.ok linesM) lg).logger.events ∧
    (set_log_level cf (Except.ok linesI) lg).logger.threshold =
      log_level_num "INFO".data ∧
    LogEvent.critical (msg_bad_option cf t) ∈
      (set_log_level cf (Except.ok linesI) lg).logger.events ∧
    (thread_step cf envM s).logger.threshold = log_level_num "INFO".data ∧
    LogEvent.critical (msg_no_level_thread cf) ∈
      (thread_step cf envM s).logger.events ∧
    (thread_step cf envI s).logger.threshold = log_level_num "INFO".data ∧
    LogEvent.critical (msg_bad_option cf t) ∈
      (thread_step cf envI s).logger.events ∧
    msg_no_level_init cf ≠ msg_bad_option cf t ∧
    msg_no_level_thread cf ≠ msg_bad_option cf t := by
  have hTM := thread_step_read_ok cf envM s cM linesM hM hMne hMr
  have hTI := thread_step_read_ok cf envI s cI linesI hI hIne hIr
  rw [hmiss] at hTM
  rw [hinv] at hTI
  refine ⟨?_, ?_, ?_, ?_, ?_, ?_, ?_, ?_,
    msg_no_level_init_ne_bad cf t, msg_no_level_thread_ne_bad cf t⟩
  · simp [set_log_level, set_log_apply, hmiss, InitOutcome.logger,
      Logger.log, Logger.setLevel]
  · simp [set_log_level, set_log_apply, hmiss, InitOutcome.logger,
      Logger.log, Logger.setLevel]
  · simp [set_log_level, set_log_apply, hinv, InitOutcome.logger,
      Logger.log, Logger.setLevel]
  · simp [set_log_level, set_log_apply, hinv, InitOutcome.logger,
      Logger.log, Logger.setLevel]
  · rw [hTM]; simp [thread_apply, Logger.log, Logger.setLevel]
  · rw [hTM]; simp [thread_apply, Logger.log, Logger.setLevel]
  · rw [hTI]; simp [thread_apply, Logger.log, Logger.setLevel]
  · rw [hTI]; simp [thread_apply, Logger.log, Logger.setLevel]

/-- Witness for C6: an empty file (missing directive) and a file whose
directive carries the invalid token `XX`. -/
theorem C6_fallback_to_info_witness :
    (set_log_level "cfg".data (Except.ok []) freshLogger).logger.threshold =
      log_level_num "INFO".data ∧
    LogEvent.critical (msg_no_level_init "cfg".data) ∈
      (set_log_level "cfg".data (Except.ok []) freshLogger).logger.events ∧
    (set_log_level "cfg".data (Except.ok ["level=XX\n".data])
        freshLogger).logger.threshold = log_level_num "INFO".data ∧
    LogEvent.critical (msg_bad_option "cfg".data "XX".data) ∈
      (set_log_level "cfg".data (Except.ok ["level=XX\n".data])
        freshLogger).logger.events ∧
    (thread_step "cfg".data ⟨Except.ok 1, Except.ok []⟩
        ⟨0, freshLogger⟩).logger.threshold = log_level_num "INFO".data ∧
    LogEvent.critical (msg_no_level_thread "cfg".data) ∈
      (thread_step "cfg".data ⟨Except.ok 1, Except.ok []⟩
        ⟨0, freshLogger⟩).logger.events ∧
    (thread_step "cfg".data ⟨Except.ok 1, Except.ok ["level=XX\n".data]⟩
        ⟨0, freshLogger⟩).logger.threshold = log_level_num "INFO".data ∧
    LogEvent.critical (msg_bad_option "cfg".data "XX".data) ∈
      (thread_step "cfg".data ⟨Except.ok 1, Except.ok ["level=XX\n".data]⟩
        ⟨0, freshLogger⟩).logger.events ∧
    msg_no_level_init "cfg".data ≠ msg_bad_option "cfg".data "XX".data ∧
    msg_no_level_thread "cfg".data ≠ msg_bad_option "cfg".data "XX".data :=
  C6_fallback_to_info "cfg".data "XX".data [] ["level=XX\n".data] freshLogger
    ⟨0, freshLogger⟩ ⟨Except.ok 1, Except.ok []⟩
    ⟨Except.ok 1, Except.ok ["level=XX\n".data]⟩ 1 1
    (by decide) (by decide) rfl (by decide) rfl rfl (by decide) rfl

/-! ### Claim C7 -/

/-- C7: when the watcher sees a changed modification time and the
file's first retained `level=` line has candidate exactly a valid
severity name `S`, the iteration sets the threshold to `log_level[S]`
and logs the informational message naming the new level. -/
theorem C7_valid_level_applied (cf S l : List Char) (lines : List (List Char))
    (env : TickEnv) (s : WState) (c : Int)
    (hS : S ∈ log_level_keys)
    (hm : env.mtime = Except.ok c) (hne : c - s.modTime ≠ 0)
    (hr : env.read = Except.ok lines)
    (hfind : (conf_raw lines).find? level_filt = some l)
    (hcand : ((splitOnEq l)[1]?).getD [] = S) :
    (thread_step cf env s).logger.threshold = log_level_num S ∧
    (thread_step cf env s).logger.events =
      s.logger.events ++ [LogEvent.info (msg_changed S)] := by
  have hb : ((splitOnEq l)[1]?).getD [] ∈ log_level_keys := by
    rw [hcand]; exact hS
  have hscan : scan_lines (conf_raw lines) = ParseOutcome.found S := by
    rw [scan_lines_find (conf_raw lines) l hfind, if_pos hb, hcand]
  rw [thread_step_read_ok cf env s c lines hm hne hr, hscan]
  exact ⟨rfl, rfl⟩

/-- Witness for C7: the file changes to `level=DEBUG`. -/
theorem C7_valid_level_applied_witness :
    (thread_step "cfg".data ⟨Except.ok 1, Except.ok ["level=DEBUG\n".data]⟩
        ⟨0, freshLogger⟩).logger.threshold = log_level_num "DEBUG".data ∧
    (thread_step "cfg".data ⟨Except.ok 1, Except.ok ["level=DEBUG\n".data]⟩
        ⟨0, freshLogger⟩).logger.events =
      (WState.mk 0 freshLogger).logger.events ++
        [LogEvent.info (msg_changed "DEBUG".data)] :=
  C7_valid_level_applied "cfg".data "DEBUG".data "level=DEBUG".data
    ["level=DEBUG\n".data] ⟨Except.ok 1, Except.ok ["level=DEBUG\n".data]⟩
    ⟨0, freshLogger⟩ 1 (by decide) rfl (by decide) rfl (by decide) (by decide)

end Gemlogconf
